import Mathlib

/-!
Verification of the Quran-app directional compass core and storage helpers.

The TypeScript source is embedded shallowly over the real numbers:
JavaScript `Math.sin`, `Math.cos` and `Math.atan2` become `Real.sin`,
`Real.cos` and `Complex.arg` (`atan2 y x = arg (x + y i)`, range `(-π, π]`,
`atan2 0 0 = 0` by convention, matching the JS specification), and the
JavaScript remainder operator `%` becomes `jsMod`, which truncates the
quotient toward zero exactly as JS does.  The discrete storage helpers
(`getWithExpiry`, `handleReset`) are embedded as executable functions over
`Int` timestamps and `String`-keyed stores.
-/

open Real

noncomputable section

/-- JavaScript truncation toward zero, as used by the `%` operator. -/
def jsTrunc (x : ℝ) : ℤ := if 0 ≤ x then ⌊x⌋ else ⌈x⌉

/-- The JavaScript remainder operator `a % n` on finite numbers:
`a - n * trunc (a / n)`. -/
def jsMod (a n : ℝ) : ℝ := a - n * jsTrunc (a / n)

/-- The JS `Math.atan2 y x`, modelled as the argument of the complex number
`x + y i`; its range is `(-π, π]` and `atan2 0 0 = 0`. -/
def atan2 (y x : ℝ) : ℝ := Complex.arg ⟨x, y⟩

/-- Source constant `KAABA_LATITUDE = 21.4225`. -/
def KAABA_LATITUDE : ℝ := 21.4225

/-- Source constant `KAABA_LONGITUDE = 39.8262`. -/
def KAABA_LONGITUDE : ℝ := 39.8262

/-- A geographic coordinate as carried by `coords` in the source. -/
structure Coords where
  latitude : ℝ
  longitude : ℝ

/-- A raw magnetometer sample `{ x, y, z }`. -/
structure MagnetometerData where
  x : ℝ
  y : ℝ
  z : ℝ

/-- The platform discriminator tested by comparing the platform OS tag with the iOS tag. -/
inductive PlatformOS where
  | ios : PlatformOS
  | android : PlatformOS

/-- Function `calculateQiblaDirection` from the Qibla screen: converts observer and
Kaaba coordinates to radians, applies the great-circle initial-bearing
formula, converts back to degrees, and normalizes via `(qibla + 360) % 360`. -/
def calculateQiblaDirection (coords : Coords) : ℝ :=
  let lat1 := coords.latitude * (π / 180)
  let lon1 := coords.longitude * (π / 180)
  let lat2 := KAABA_LATITUDE * (π / 180)
  let lon2 := KAABA_LONGITUDE * (π / 180)
  let y := Real.sin (lon2 - lon1) * Real.cos lat2
  let x := Real.cos lat1 * Real.sin lat2 -
    Real.sin lat1 * Real.cos lat2 * Real.cos (lon2 - lon1)
  let qibla := atan2 y x * (180 / π)
  jsMod (qibla + 360) 360

/-- Function `calculateHeading` from the Qibla screen: `atan2(y, x)` on iOS,
`atan2(x, y)` otherwise, in degrees, normalized via `(heading + 360) % 360`. -/
def calculateHeading (os : PlatformOS) (m : MagnetometerData) : ℝ :=
  let heading :=
    match os with
    | PlatformOS.ios => atan2 m.y m.x * (180 / π)
    | PlatformOS.android => atan2 m.x m.y * (180 / π)
  jsMod (heading + 360) 360

/-- Source binding `compassRotation = -heading`. -/
def compassRotation (heading : ℝ) : ℝ := -heading

/-- Source binding `needleRotation = qiblaDirection - heading`. -/
def needleRotation (qiblaDirection heading : ℝ) : ℝ := qiblaDirection - heading

/-- The specification function `computeBearing(observer, target)` written from §4.1 of the
specification: degrees to radians, `y = sin(Δlon)·cos(lat2)`,
`x = cos(lat1)·sin(lat2) − sin(lat1)·cos(lat2)·cos(Δlon)`,
`bearing = atan2(y, x)` in degrees, normalized into `[0, 360)` by the
mathematical `(bearing + 360) mod 360`. -/
def specComputeBearing (lat1d lon1d lat2d lon2d : ℝ) : ℝ :=
  let lat1 := lat1d * (π / 180)
  let lon1 := lon1d * (π / 180)
  let lat2 := lat2d * (π / 180)
  let lon2 := lon2d * (π / 180)
  let y := Real.sin (lon2 - lon1) * Real.cos lat2
  let x := Real.cos lat1 * Real.sin lat2 -
    Real.sin lat1 * Real.cos lat2 * Real.cos (lon2 - lon1)
  let bearing := atan2 y x * (180 / π)
  360 * Int.fract ((bearing + 360) / 360)

/-- The specification function `computeHeading(sample, platform)` written from §4.1:
platform A (iOS) uses `atan2(y, x)`, platform B uses `atan2(x, y)`,
result in degrees normalized into `[0, 360)` by the mathematical mod. -/
def specComputeHeading (os : PlatformOS) (x y : ℝ) : ℝ :=
  let raw :=
    match os with
    | PlatformOS.ios => atan2 y x * (180 / π)
    | PlatformOS.android => atan2 x y * (180 / π)
  360 * Int.fract ((raw + 360) / 360)

end

/-- Source constant `STORAGE_EXPIRY_TIME = 30 * 60 * 1000` (milliseconds). -/
def STORAGE_EXPIRY_TIME : ℤ := 30 * 60 * 1000

/-- What a stored cell for a key may hold, as seen by `getWithExpiry`:
absent (`getItem` returned a falsy value), unparseable (`JSON.parse`
throws, caught and turned into `null`), or a parsed
`{ value, timestamp }` record written by `saveWithExpiry`. -/
inductive StoredRaw (V : Type) where
  | absent : StoredRaw V
  | unparseable : StoredRaw V
  | item : V → ℤ → StoredRaw V
deriving DecidableEq

/-- Function `getWithExpiry(key)` over a store of raw cells at current time `now`:
returns the retrieved value (or `none`) together with the store after the
call (expired items are removed via `AsyncStorage.removeItem`). -/
def getWithExpiry {V : Type} (now : ℤ) (store : String → StoredRaw V)
    (key : String) : Option V × (String → StoredRaw V) :=
  match store key with
  | StoredRaw.absent => (none, store)
  | StoredRaw.unparseable => (none, store)
  | StoredRaw.item v ts =>
    if now - ts > STORAGE_EXPIRY_TIME then
      (none, fun k => if k = key then StoredRaw.absent else store k)
    else
      (some v, store)

/-- Function `handleReset` from the Tasbeeh screen, restricted to its effect on the
`counts` object: with a selected adhkar it produces
`{ ...counts, [selectedAdhkar.id]: 0 }`; with none selected it returns early
leaving `counts` unchanged. -/
def handleReset (selectedAdhkar : Option String)
    (counts : String → Option ℕ) : String → Option ℕ :=
  match selectedAdhkar with
  | none => counts
  | some id => fun k => if k = id then some 0 else counts k

/-- A concrete demonstration store: a single saved Tasbeeh counter of 5,
written at timestamp 0. -/
def tasbeehDemoStore : String → StoredRaw ℕ := fun k =>
  if k = "tasbeeh_counts" then StoredRaw.item 5 0 else StoredRaw.absent

/-- A concrete demonstration counts object: `{ "b": 7 }`. -/
def demoCounts : String → Option ℕ := fun k =>
  if k = "b" then some 7 else none

section ModLemmas

/-- For a nonnegative dividend, JS truncation agrees with the floor. -/
theorem jsTrunc_eq_floor {x : ℝ} (h : 0 ≤ x) : jsTrunc x = ⌊x⌋ := by
  simp [jsTrunc, h]

/-- For a nonnegative dividend and positive divisor, the JS remainder is the
mathematical remainder `n * fract (a / n)`. -/
theorem jsMod_eq_fract {a n : ℝ} (ha : 0 ≤ a) (hn : 0 < n) :
    jsMod a n = n * Int.fract (a / n) := by
  have hdiv : 0 ≤ a / n := div_nonneg ha hn.le
  rw [jsMod, jsTrunc_eq_floor hdiv, Int.fract]
  field_simp

/-- JS remainder of a nonnegative number by a positive modulus is
nonnegative. -/
theorem jsMod_nonneg {a n : ℝ} (ha : 0 ≤ a) (hn : 0 < n) : 0 ≤ jsMod a n := by
  rw [jsMod_eq_fract ha hn]
  exact mul_nonneg hn.le (Int.fract_nonneg _)

/-- JS remainder of a nonnegative number by a positive modulus is below the
modulus. -/
theorem jsMod_lt {a n : ℝ} (ha : 0 ≤ a) (hn : 0 < n) : jsMod a n < n := by
  rw [jsMod_eq_fract ha hn]
  calc n * Int.fract (a / n) < n * 1 :=
        (mul_lt_mul_left hn).2 (Int.fract_lt_one _)
    _ = n := mul_one n

end ModLemmas

section AngleLemmas

/-- The value `atan2 0 0 = 0`, the JS convention. -/
theorem atan2_zero_zero : atan2 0 0 = 0 := by
  show Complex.arg 0 = 0
  exact Complex.arg_zero

/-- The raw bearing/heading in degrees is strictly above `-180`. -/
theorem rawDeg_lower (y x : ℝ) : -180 < atan2 y x * (180 / π) := by
  have hπ := Real.pi_pos
  have h : -π < atan2 y x := Complex.neg_pi_lt_arg _
  have hpos : (0 : ℝ) < 180 / π := by positivity
  calc (-180 : ℝ) = -π * (180 / π) := by field_simp; ring
    _ < atan2 y x * (180 / π) := mul_lt_mul_of_pos_right h hpos

/-- The raw bearing/heading in degrees is at most `180`. -/
theorem rawDeg_upper (y x : ℝ) : atan2 y x * (180 / π) ≤ 180 := by
  have hπ := Real.pi_pos
  have h : atan2 y x ≤ π := Complex.arg_le_pi _
  have hpos : (0 : ℝ) ≤ 180 / π := by positivity
  calc atan2 y x * (180 / π) ≤ π * (180 / π) :=
        mul_le_mul_of_nonneg_right h hpos
    _ = 180 := by field_simp

/-- The remainder `(raw + 360) % 360` lands in `[0, 360)` for every raw `atan2` degree
value. -/
theorem norm360_mem (y x : ℝ) :
    0 ≤ jsMod (atan2 y x * (180 / π) + 360) 360 ∧
      jsMod (atan2 y x * (180 / π) + 360) 360 < 360 := by
  have h := rawDeg_lower y x
  exact ⟨jsMod_nonneg (by linarith) (by norm_num),
    jsMod_lt (by linarith) (by norm_num)⟩

/-- Adding 360 and taking the JS remainder by 360 fixes every degree value
already in `[0, 360)`. -/
theorem jsMod_add360 {d : ℝ} (h0 : 0 ≤ d) (h1 : d < 360) :
    jsMod (d + 360) 360 = d := by
  have hdiv0 : (0 : ℝ) ≤ (d + 360) / 360 := by positivity
  have hfloor : ⌊((d + 360) / 360 : ℝ)⌋ = 1 := by
    rw [Int.floor_eq_iff]
    push_cast
    constructor
    · rw [le_div_iff₀ (by norm_num : (0:ℝ) < 360)]
      linarith
    · rw [div_lt_iff₀ (by norm_num : (0:ℝ) < 360)]
      linarith
  have htr : jsTrunc ((d + 360) / 360) = 1 := by
    rw [jsTrunc_eq_floor hdiv0]
    exact hfloor
  rw [jsMod, htr]
  push_cast
  ring

/-- Function `calculateQiblaDirection` always lands in `[0, 360)`. -/
theorem calculateQiblaDirection_mem (coords : Coords) :
    0 ≤ calculateQiblaDirection coords ∧ calculateQiblaDirection coords < 360 := by
  simp only [calculateQiblaDirection]
  exact norm360_mem _ _

/-- Function `calculateHeading` always lands in `[0, 360)`, on either platform. -/
theorem calculateHeading_mem (os : PlatformOS) (m : MagnetometerData) :
    0 ≤ calculateHeading os m ∧ calculateHeading os m < 360 := by
  cases os <;> simp only [calculateHeading] <;> exact norm360_mem _ _

end AngleLemmas

section DegenerateLemmas

/-- The spec-side bearing of a point to itself is 0: both `y` and `x`
vanish and `atan2 0 0 = 0`. -/
theorem specComputeBearing_self (lat lon : ℝ) :
    specComputeBearing lat lon lat lon = 0 := by
  simp only [specComputeBearing, sub_self, Real.sin_zero, Real.cos_zero,
    zero_mul, mul_one]
  have hx : Real.cos (lat * (π / 180)) * Real.sin (lat * (π / 180)) -
      Real.sin (lat * (π / 180)) * Real.cos (lat * (π / 180)) = 0 := by ring
  rw [hx, atan2_zero_zero, zero_mul, zero_add]
  norm_num [Int.fract]

/-- The bearing computed by the code when the observer stands at the Kaaba itself is 0. -/
theorem calculateQiblaDirection_kaaba :
    calculateQiblaDirection ⟨KAABA_LATITUDE, KAABA_LONGITUDE⟩ = 0 := by
  simp only [calculateQiblaDirection, sub_self, Real.sin_zero, Real.cos_zero,
    zero_mul, mul_one]
  have hx : Real.cos (KAABA_LATITUDE * (π / 180)) *
        Real.sin (KAABA_LATITUDE * (π / 180)) -
      Real.sin (KAABA_LATITUDE * (π / 180)) *
        Real.cos (KAABA_LATITUDE * (π / 180)) = 0 := by ring
  rw [hx, atan2_zero_zero, zero_mul]
  exact jsMod_add360 le_rfl (by norm_num)

/-- A concrete heading: the iOS formula on the sample `(0, 1, 0)` yields
exactly 90 degrees. -/
theorem calculateHeading_ios_sample :
    calculateHeading PlatformOS.ios ⟨0, 1, 0⟩ = 90 := by
  simp only [calculateHeading]
  have h1 : atan2 1 0 = π / 2 := by
    show Complex.arg Complex.I = π / 2
    exact Complex.arg_I
  rw [h1]
  have hπ := Real.pi_ne_zero
  have h2 : (π / 2) * (180 / π) = 90 := by field_simp; ring
  rw [h2]
  exact jsMod_add360 (by norm_num) (by norm_num)

end DegenerateLemmas

section FixtureLemmas

/-- With both components positive, `atan2` lands strictly inside the first
quadrant `(0, π/2)`. -/
theorem atan2_pos_lt {y x : ℝ} (hy : 0 < y) (hx : 0 < x) :
    0 < atan2 y x ∧ atan2 y x < π / 2 := by
  constructor
  · have h0 : 0 ≤ atan2 y x := Complex.arg_nonneg_iff.2 hy.le
    have hne : atan2 y x ≠ 0 := by
      intro h
      have him := (Complex.arg_eq_zero_iff.1 h).2
      exact ne_of_gt hy him
    exact lt_of_le_of_ne h0 (Ne.symm hne)
  · exact Complex.arg_lt_pi_div_two_iff.2 (Or.inl hx)

/-- JS normalization agrees with the mathematical `mod` on raw `atan2`
degree values. -/
theorem jsMod_norm_eq_fract (y x : ℝ) :
    jsMod (atan2 y x * (180 / π) + 360) 360 =
      360 * Int.fract ((atan2 y x * (180 / π) + 360) / 360) := by
  have h := rawDeg_lower y x
  exact jsMod_eq_fract (by linarith) (by norm_num)

/-- On either platform, the heading of the all-zero sample is 0. -/
theorem calculateHeading_zero (os : PlatformOS) :
    calculateHeading os ⟨0, 0, 0⟩ = 0 := by
  cases os <;>
    · simp only [calculateHeading]
      rw [atan2_zero_zero, zero_mul]
      exact jsMod_add360 le_rfl (by norm_num)

end FixtureLemmas

/-- C1: `calculateQiblaDirection` computes the initial great-circle bearing
from the observer to the fixed Kaaba target (21.4225, 39.8262) by the
degrees-to-radians conversion, `y = sin(Δlon)·cos(lat2)`,
`x = cos(lat1)·sin(lat2) − sin(lat1)·cos(lat2)·cos(Δlon)`, `atan2(y, x)`
back in degrees, normalized as `(bearing + 360) mod 360`: it coincides with
the spec-side `computeBearing` instantiated at the Kaaba target. -/
theorem C1_qibla_formula (coords : Coords) :
    calculateQiblaDirection coords =
      specComputeBearing coords.latitude coords.longitude
        KAABA_LATITUDE KAABA_LONGITUDE := by
  simp only [calculateQiblaDirection, specComputeBearing]
  exact jsMod_norm_eq_fract _ _

/-- C2: every bearing and every heading (on either platform, including the
all-zero magnetometer sample) lies in `[0, 360)`; the all-zero sample gives
heading 0 by the `atan2(0,0) = 0` convention, with no undefined value. -/
theorem C2_outputs_in_range :
    (∀ coords : Coords,
      0 ≤ calculateQiblaDirection coords ∧ calculateQiblaDirection coords < 360) ∧
    (∀ (os : PlatformOS) (m : MagnetometerData),
      0 ≤ calculateHeading os m ∧ calculateHeading os m < 360) ∧
    (∀ os : PlatformOS, calculateHeading os ⟨0, 0, 0⟩ = 0) :=
  ⟨calculateQiblaDirection_mem, calculateHeading_mem, calculateHeading_zero⟩

/-- C3: `calculateHeading` uses exactly the two platform formulas —
`atan2(y, x)` on iOS and `atan2(x, y)` otherwise, in degrees — and
normalizes the result into `[0, 360)`: it coincides with the spec-side
`computeHeading` and lands in range. -/
theorem C3_heading_platform (os : PlatformOS) (m : MagnetometerData) :
    calculateHeading os m = specComputeHeading os m.x m.y ∧
      0 ≤ calculateHeading os m ∧ calculateHeading os m < 360 := by
  refine ⟨?_, (calculateHeading_mem os m).1, (calculateHeading_mem os m).2⟩
  cases os <;> simp only [calculateHeading, specComputeHeading] <;>
    exact jsMod_norm_eq_fract _ _

/-- C4: the needle rotation is exactly `bearing − heading` with no
normalization, the rose rotation is exactly `−heading`, and the display
rotation is antisymmetric in its two arguments. -/
theorem C4_display_rotation (b h : ℝ) :
    needleRotation b h = b - h ∧ compassRotation h = -h ∧
      needleRotation b h = -(needleRotation h b) := by
  refine ⟨rfl, rfl, ?_⟩
  simp only [needleRotation]
  ring

/-- C6: the bearing of any point to itself is 0 (both `atan2` arguments
vanish and `atan2(0,0) = 0`), and in particular the source function
`calculateQiblaDirection` at the Kaaba itself — the only way observer can
equal the fixed target — returns 0, a finite value. -/
theorem C6_degenerate_bearing_zero :
    (∀ lat lon : ℝ, specComputeBearing lat lon lat lon = 0) ∧
      calculateQiblaDirection ⟨KAABA_LATITUDE, KAABA_LONGITUDE⟩ = 0 :=
  ⟨specComputeBearing_self, calculateQiblaDirection_kaaba⟩

/-- C7: headings are insensitive to the z component of the magnetometer
sample on either platform: samples agreeing on x and y give equal
headings. -/
theorem C7_heading_ignores_z (os : PlatformOS) (x y z₁ z₂ : ℝ) :
    calculateHeading os ⟨x, y, z₁⟩ = calculateHeading os ⟨x, y, z₂⟩ := by
  cases os <;> rfl

/-- C8: from the observer (0°N, 0°E) the computed Qibla bearing lies
strictly between 0° and 90°, i.e. points generally north-east. -/
theorem C8_origin_fixture :
    0 < calculateQiblaDirection ⟨0, 0⟩ ∧ calculateQiblaDirection ⟨0, 0⟩ < 90 := by
  have hπ := Real.pi_pos
  simp only [calculateQiblaDirection, zero_mul, sub_zero, Real.cos_zero,
    Real.sin_zero, one_mul]
  set A := KAABA_LATITUDE * (π / 180) with hA
  set B := KAABA_LONGITUDE * (π / 180) with hB
  have hA0 : 0 < A := by
    rw [hA]; simp only [KAABA_LATITUDE]; positivity
  have hA2 : A < π / 2 := by
    rw [hA]; simp only [KAABA_LATITUDE]; nlinarith
  have hB0 : 0 < B := by
    rw [hB]; simp only [KAABA_LONGITUDE]; positivity
  have hB2 : B < π := by
    rw [hB]; simp only [KAABA_LONGITUDE]; nlinarith
  have hx : 0 < Real.sin A :=
    Real.sin_pos_of_pos_of_lt_pi hA0 (by linarith)
  have hcosA : 0 < Real.cos A :=
    Real.cos_pos_of_mem_Ioo ⟨by linarith, hA2⟩
  have hsinB : 0 < Real.sin B := Real.sin_pos_of_pos_of_lt_pi hB0 hB2
  have hy : 0 < Real.sin B * Real.cos A := mul_pos hsinB hcosA
  have harg := atan2_pos_lt hy hx
  have hscale : (0 : ℝ) < 180 / π := by positivity
  have hraw0 : 0 < atan2 (Real.sin B * Real.cos A) (Real.sin A) * (180 / π) :=
    mul_pos harg.1 hscale
  have hraw90 : atan2 (Real.sin B * Real.cos A) (Real.sin A) * (180 / π) < 90 := by
    have hπne := Real.pi_ne_zero
    calc atan2 (Real.sin B * Real.cos A) (Real.sin A) * (180 / π)
        < (π / 2) * (180 / π) := mul_lt_mul_of_pos_right harg.2 hscale
      _ = 90 := by field_simp; ring
  rw [jsMod_add360 hraw0.le (by linarith)]
  exact ⟨hraw0, hraw90⟩

/-- C5 counterexample: the magnetometer sample `(0, 1, 0)` on iOS produces
heading 90°, whose rose rotation `compassRotation = -heading = -90` is
negative, yet it is exactly the value handed to the rendered `rotate`
transform — so not every angular value reaching the presentation layer is
in `[0, 360)`. -/
theorem C5_counterexample :
    calculateHeading PlatformOS.ios ⟨0, 1, 0⟩ = 90 ∧
      compassRotation (calculateHeading PlatformOS.ios ⟨0, 1, 0⟩) < 0 := by
  refine ⟨calculateHeading_ios_sample, ?_⟩
  rw [calculateHeading_ios_sample]
  norm_num [compassRotation]

/-- C5 (amended): `qiblaDirection` and `heading` are normalized into
`[0, 360)` before use, but `compassRotation` and `needleRotation` reach the
rendered rotation transforms unnormalized — `-heading` and
`qiblaDirection - heading` respectively — and can be negative. -/
theorem C5_amended_normalization :
    (∀ coords : Coords,
      0 ≤ calculateQiblaDirection coords ∧ calculateQiblaDirection coords < 360) ∧
    (∀ (os : PlatformOS) (m : MagnetometerData),
      0 ≤ calculateHeading os m ∧ calculateHeading os m < 360) ∧
    (∀ q h : ℝ, compassRotation h = -h ∧ needleRotation q h = q - h) ∧
    (∃ m : MagnetometerData,
      compassRotation (calculateHeading PlatformOS.ios m) < 0) := by
  refine ⟨calculateQiblaDirection_mem, calculateHeading_mem,
    fun q h => ⟨rfl, rfl⟩, ⟨⟨0, 1, 0⟩, ?_⟩⟩
  rw [calculateHeading_ios_sample]
  norm_num [compassRotation]

section StorageLemmas

/-- Unfolding `getWithExpiry` on a key holding a parsed item. -/
theorem getWithExpiry_item {V : Type} (now : ℤ) (store : String → StoredRaw V)
    (key : String) (v : V) (ts : ℤ) (hk : store key = StoredRaw.item v ts) :
    getWithExpiry now store key =
      if now - ts > STORAGE_EXPIRY_TIME then
        (none, fun k => if k = key then StoredRaw.absent else store k)
      else (some v, store) := by
  unfold getWithExpiry
  rw [hk]

/-- The expiry window constant is 1,800,000 milliseconds. -/
theorem STORAGE_EXPIRY_TIME_eq : STORAGE_EXPIRY_TIME = 1800000 := by decide

end StorageLemmas

/-- C9: `getWithExpiry` returns a stored value exactly when its timestamp is
at most 30 minutes (1,800,000 ms) old; an item older than that is dropped
— `none` is returned and the key is removed from storage — and an absent or
unparseable cell yields `none` with the store untouched. -/
theorem C9_getWithExpiry_expiry {V : Type} (now : ℤ)
    (store : String → StoredRaw V) (key : String) (v : V) (ts : ℤ) :
    (store key = StoredRaw.item v ts →
      (now - ts ≤ 1800000 → getWithExpiry now store key = (some v, store)) ∧
      (now - ts > 1800000 →
        (getWithExpiry now store key).1 = none ∧
        (getWithExpiry now store key).2 key = StoredRaw.absent)) ∧
    (store key = StoredRaw.absent → getWithExpiry now store key = (none, store)) ∧
    (store key = StoredRaw.unparseable →
      getWithExpiry now store key = (none, store)) := by
  refine ⟨fun hk => ?_, fun hk => by unfold getWithExpiry; rw [hk],
    fun hk => by unfold getWithExpiry; rw [hk]⟩
  rw [getWithExpiry_item now store key v ts hk]
  constructor
  · intro hle
    rw [if_neg (by rw [STORAGE_EXPIRY_TIME_eq]; omega)]
  · intro hgt
    rw [if_pos (by rw [STORAGE_EXPIRY_TIME_eq]; omega)]
    exact ⟨rfl, by simp⟩

/-- C9 witness: a Tasbeeh counter saved at time 0 and read at time
1,800,001 ms (just past 30 minutes) comes back `none` and is removed. -/
theorem C9_getWithExpiry_expiry_witness :
    tasbeehDemoStore "tasbeeh_counts" = StoredRaw.item 5 0 ∧
    ((1800001 : ℤ) - 0 > 1800000) ∧
    (getWithExpiry 1800001 tasbeehDemoStore "tasbeeh_counts").1 = none ∧
    (getWithExpiry 1800001 tasbeehDemoStore "tasbeeh_counts").2 "tasbeeh_counts" =
      StoredRaw.absent := by
  have h := (C9_getWithExpiry_expiry 1800001 tasbeehDemoStore
    "tasbeeh_counts" 5 0).1 (by decide)
  exact ⟨by decide, by decide, (h.2 (by decide)).1, (h.2 (by decide)).2⟩

/-- C10: with an adhkar selected, `handleReset` zeroes exactly the count of
that id and leaves every other key of the counts object unchanged; with no
selection it leaves the counts object entirely unchanged. -/
theorem C10_handleReset_frame (counts : String → Option ℕ) (aid : String) :
    handleReset (some aid) counts aid = some 0 ∧
    (∀ k, k ≠ aid → handleReset (some aid) counts k = counts k) ∧
    handleReset none counts = counts := by
  refine ⟨by simp [handleReset], fun k hk => by simp [handleReset, hk], rfl⟩

/-- C10 witness: on the counts object `{ "b": 7 }` with adhkar `"a"`
selected, reset sets `"a"` to 0 and leaves `"b"` at 7; with nothing
selected, `"b"` stays at 7. -/
theorem C10_handleReset_frame_witness :
    handleReset (some "a") demoCounts "a" = some 0 ∧
    handleReset (some "a") demoCounts "b" = some 7 ∧
    handleReset none demoCounts "b" = some 7 := by
  have h := C10_handleReset_frame demoCounts "a"
  refine ⟨h.1, ?_, ?_⟩
  · rw [h.2.1 "b" (by decide)]
    decide
  · rw [h.2.2]
    decide
